import Mathlib

/-!
Shallow embedding of the stock-gateway application (`src/main.py`) and proofs
about it: the record normalizer (`df_to_records`), the TTL cache
(`get_from_cache` / `set_cache`), the retrying fetch (`fetch_with_retries`),
the request handler (`stock_info`), and an interleaving model of the
capacity-3 download semaphore (`GateStep`).

The external provider (`yf.download`) is abstracted as an oracle giving the
outcome of each download call; everything else follows the source line by
line. Machine floats carried by the data frame are modelled as rationals
(the only float arithmetic performed by the source on the modelled paths is
`backoff * 2 ** (attempt - 1)` with `backoff = 1.0`, which is exact).
-/

/-- Python `str.upper()` (used on symbols, main.py lines 66, 81, 92, 175):
character-wise upcasing, written over the character list so that it evaluates
by kernel reduction (`String.toUpper`'s byte-position recursion does not). -/
def strUpper (s : String) : String := ⟨s.data.map Char.toUpper⟩

/-- Python `str.lower()` (used on the interval and the Accept header, main.py
lines 125, 172): character-wise downcasing over the character list. -/
def strLower (s : String) : String := ⟨s.data.map Char.toLower⟩

/-- Whether `needle` is a prefix of `hay` (helper for python's substring
test `in`). -/
def startsWithCh : List Char → List Char → Bool
  | [], _ => true
  | _ :: _, [] => false
  | a :: as, b :: bs => a = b && startsWithCh as bs

/-- Python's substring containment `needle in hay`. -/
def hasSubstr (needle hay : List Char) : Bool :=
  match hay with
  | [] => needle.isEmpty
  | _ :: t => startsWithCh needle hay || hasSubstr needle t

/-- A scalar cell of the raw data frame: either a float-parseable number or a
value on which python's `float(...)` raises (e.g. a non-numeric string).
This models the argument of `float(open_val)` in `df_to_records`
(main.py lines 59-60). -/
inductive Cell where
  | num : ℚ → Cell
  | nonnum : String → Cell
deriving DecidableEq

/-- Python `float(v)` on a cell: returns the number or raises `ValueError`. -/
def floatOf : Cell → Except String ℚ
  | .num q => .ok q
  | .nonnum s => .error ("could not convert string to float: '" ++ s ++ "'")

/-- One row of the raw series. `date` is the already-formatted date string
(the `date_str` computation in main.py lines 40-43 is wrapped in a
`try/except` with a `str(...)` fallback, so it never raises and is modelled
as an opaque string). `openCell` / `closeCell` are `none` when the `Open` /
`Close` column is absent from the frame, in which case main.py lines 45-55
leave `open_val` / `close_val` as python `None`. -/
structure Row where
  date : String
  openCell : Option Cell
  closeCell : Option Cell
deriving DecidableEq

/-- A raw series: the rows of the DataFrame in order. `hist.empty` in the
source corresponds to the list being empty. -/
abbrev Series := List Row

/-- One normalized record, `{"date": ..., "open": ..., "close": ...}`
(main.py lines 57-61). -/
structure StockRecord where
  date : String
  open_ : Option ℚ
  close : Option ℚ
deriving DecidableEq

/-- Models `None if v is None else float(v)` (main.py lines 59-60): a missing
column stays `None`, a present value goes through `float`, which may raise. -/
def optFloat : Option Cell → Except String (Option ℚ)
  | none => .ok none
  | some c => (floatOf c).map some

/-- Models the per-row body of the loop in `df_to_records` (main.py lines
37-61): extract `open_val` then `close_val`, converting with `float`, where a
raise propagates out of the function. `open` is evaluated before `close`,
exactly as in the dict literal of line 57-61. -/
def recordOfRow (r : Row) : Except String StockRecord := do
  let o ← optFloat r.openCell
  let cl ← optFloat r.closeCell
  .ok { date := r.date, open_ := o, close := cl }

/-- Models `df_to_records` (main.py lines 25-62): builds the records in row
order; an exception raised while converting any row aborts the whole
conversion and propagates to the caller. -/
def df_to_records : List Row → Except String (List StockRecord)
  | [] => .ok []
  | r :: rs => do
    let rec0 ← recordOfRow r
    let rest ← df_to_records rs
    .ok (rec0 :: rest)

instance {ε α : Type} [DecidableEq ε] [DecidableEq α] : DecidableEq (Except ε α) :=
  fun x y =>
    match x, y with
    | .ok a, .ok b =>
        if h : a = b then isTrue (by rw [h])
        else isFalse (by intro hc; cases hc; exact h rfl)
    | .ok _, .error _ => isFalse (by intro hc; cases hc)
    | .error _, .ok _ => isFalse (by intro hc; cases hc)
    | .error e, .error f =>
        if h : e = f then isTrue (by rw [h])
        else isFalse (by intro hc; cases hc; exact h rfl)

/-- A cache entry `{"ts": datetime, "data": hist_df}` (main.py line 94),
with the timestamp in whole time-units (seconds). -/
structure CacheEntry where
  ts : Nat
  data : Series
deriving DecidableEq

/-- The cache `CACHE` (main.py line 13): a map from `(symbol, interval)` keys
to entries. -/
abbrev CacheMap := String × String → Option CacheEntry

/-- `CACHE_TTL = timedelta(seconds=90)` (main.py line 15). -/
def CACHE_TTL : Nat := 90

/-- Models `get_from_cache` (main.py lines 80-89). Returns the cached series
(or `none`) together with the cache state after the lookup: a stale entry is
deleted as a side effect of the access. -/
def get_from_cache (cache : CacheMap) (now : Nat) (symbol interval : String) :
    Option Series × CacheMap :=
  let key := (strUpper symbol, interval)
  match cache key with
  | none => (none, cache)
  | some entry =>
      if now - entry.ts < CACHE_TTL then (some entry.data, cache)
      else (none, fun k => if k = key then none else cache k)

/-- Models `set_cache` (main.py lines 91-94). -/
def set_cache (cache : CacheMap) (now : Nat) (symbol interval : String)
    (data : Series) : CacheMap :=
  fun k =>
    if k = (strUpper symbol, interval) then some { ts := now, data := data } else cache k

/-- Outcome of one `yf.download` call (main.py line 104): it raised
(`.error msg`), returned python `None` (`.ok none`), or returned a DataFrame
(`.ok (some hist)`, possibly empty). -/
abbrev DLResult := Except String (Option Series)

/-- Observable behaviour of one call to `fetch_with_retries`: the value
returned or the exception raised, the durations passed to `time.sleep` in
order, and the number of `yf.download` calls made. -/
structure FetchResult where
  result : Except String Series
  sleeps : List ℚ
  attempts : Nat

/-- Models the `for attempt in range(1, retries + 1)` loop of
`fetch_with_retries` (main.py lines 98-117). `oracle attempt` is the outcome
of the `yf.download` call of that attempt. On a failed attempt (exception
from the download, a `None` frame, or an empty frame) the loop records
`last_exc`, sleeps `backoff * 2 ** (attempt - 1)`, and continues; a non-empty
frame returns immediately. After the loop, the last exception is re-raised
(`"Unknown error fetching data"` when no attempt ran). -/
def fetchGo (oracle : Nat → DLResult) (backoff : ℚ) :
    Nat → Nat → Option String → FetchResult
  | _, 0, lastExc =>
      { result := .error (lastExc.getD "Unknown error fetching data"),
        sleeps := [], attempts := 0 }
  | attempt, fuel + 1, _lastExc =>
      match oracle attempt with
      | .ok (some hist) =>
          if hist.isEmpty then
            let r := fetchGo oracle backoff (attempt + 1) fuel
              (some "Empty DataFrame returned")
            { result := r.result, sleeps := backoff * 2 ^ (attempt - 1) :: r.sleeps,
              attempts := r.attempts + 1 }
          else { result := .ok hist, sleeps := [], attempts := 1 }
      | .ok none =>
          let r := fetchGo oracle backoff (attempt + 1) fuel
            (some "yfinance returned None")
          { result := r.result, sleeps := backoff * 2 ^ (attempt - 1) :: r.sleeps,
            attempts := r.attempts + 1 }
      | .error e =>
          let r := fetchGo oracle backoff (attempt + 1) fuel (some e)
          { result := r.result, sleeps := backoff * 2 ^ (attempt - 1) :: r.sleeps,
            attempts := r.attempts + 1 }

/-- Models `fetch_with_retries(symbol, interval, period, retries, backoff)`
(main.py lines 96-117); `symbol`, `interval` and `period` only parametrize the
download and are absorbed into the oracle. -/
def fetch_with_retries (oracle : Nat → DLResult) (retries : Nat) (backoff : ℚ) :
    FetchResult :=
  fetchGo oracle backoff 1 retries none

/-- `VALID_INTERVALS` (main.py lines 20-23). -/
def VALID_INTERVALS : List String :=
  ["1m", "2m", "5m", "15m", "30m", "60m", "90m", "1d", "5d", "1wk", "1mo", "3mo"]

/-- Models main.py lines 126-131: an interval already in `VALID_INTERVALS`
passes through; otherwise the alias map `{daily: 1d, weekly: 1wk,
monthly: 1mo}` is consulted; otherwise validation fails. The argument is the
already-lower-cased interval. -/
def resolveInterval (interval : String) : Option String :=
  if VALID_INTERVALS.contains interval then some interval
  else if interval = "daily" then some "1d"
  else if interval = "weekly" then some "1wk"
  else if interval = "monthly" then some "1mo"
  else none

/-- Models pandas `DataFrame.tail(n)` used at main.py line 162: for `n ≥ 0`
the last `n` rows, for negative `n` all rows but the first `|n|`. -/
def tail (n : Int) (xs : Series) : Series :=
  if 0 ≤ n then xs.drop (xs.length - n.toNat) else xs.drop ((-n).toNat)

/-- Models `float(hist["Close"].iloc[-1])` wrapped in `try/except` (main.py
lines 166-169): the last row's `Close` as a float, or `None` when the column
is missing, the frame is empty, or the value is not parseable. -/
def lastClose (hist : Series) : Option ℚ :=
  match hist.getLast? with
  | some r =>
      match r.closeCell with
      | some (.num q) => some q
      | _ => none
  | none => none

/-- Models `"application/json" in accept.lower()` (main.py lines 172-173). -/
def wantsJson (accept : String) : Bool :=
  hasSubstr "application/json".data (strLower accept).data

/-- The success payload fields shared by the XML and JSON renderings
(main.py lines 64-78 and 174-181). -/
structure Payload where
  symbol : String
  current_price : Option ℚ
  source : String
  interval : String
  records_returned : Nat
  history : List StockRecord
deriving DecidableEq

/-- Shape of a rendered response body: an `<error><message>` XML document, a
`build_xml` success document, or a `json.dumps` success document. -/
inductive Body where
  | xmlError : String → Body
  | xmlStock : Payload → Body
  | jsonStock : Payload → Body
deriving DecidableEq

/-- A rendered HTTP response: body, `media_type`, `status_code`
(FastAPI's default status is 200 when none is passed). -/
structure HttpResponse where
  body : Body
  mediaType : String
  status : Nat
deriving DecidableEq

/-- The payload of a success body, `none` for an error body. -/
def bodyPayload : Body → Option Payload
  | .xmlError _ => none
  | .xmlStock p => some p
  | .jsonStock p => some p

/-- Models the response-building `try` block of `stock_info` (main.py lines
156-191): reject an empty frame, truncate with `tail(max_records)`, normalize
(`df_to_records`), compute the latest close, then render JSON or XML by
content negotiation; any exception in the block becomes a 500 error body. -/
def process_hist (symbol interval : String) (maxRecords : Int) (accept : String)
    (hist : Series) : HttpResponse :=
  if hist.isEmpty then
    { body := .xmlError "Empty data after fetch", mediaType := "application/xml",
      status := 500 }
  else
    let hist2 := tail maxRecords hist
    match df_to_records hist2 with
    | .error e =>
        { body := .xmlError e, mediaType := "application/xml", status := 500 }
    | .ok records =>
        let payload : Payload :=
          { symbol := strUpper symbol, current_price := lastClose hist2,
            source := "YahooFinance (yfinance)", interval := interval,
            records_returned := records.length, history := records }
        if wantsJson accept then
          { body := .jsonStock payload, mediaType := "application/json",
            status := 200 }
        else
          { body := .xmlStock payload, mediaType := "application/xml",
            status := 200 }

/-- Observable outcome of one request to `stock_info`: the response, the cache
state after the request, and the interval argument of every `yf.download`
call made, in order. -/
structure StockOutcome where
  response : HttpResponse
  cache : CacheMap
  calls : List String

/-- Default of the `max_records` query parameter (main.py line 124). -/
def DEFAULT_MAX_RECORDS : Int := 180

/-- Models the `stock_info` handler (main.py lines 123-191). `primaryDL` and
`fallbackDL` are the download oracles seen by the primary retry sequence
(requested interval, 3 attempts) and the fallback sequence (`"1d"`,
2 attempts). The `period` query parameter only parametrizes the download and
is absorbed into the oracles. -/
def stock_info (primaryDL fallbackDL : Nat → DLResult) (cache : CacheMap)
    (now : Nat) (symbol interval0 : String) (maxRecords : Int)
    (accept : String) : StockOutcome :=
  let interval1 := strLower interval0
  match resolveInterval interval1 with
  | none =>
      { response := { body := .xmlError ("Unsupported interval '" ++ interval1 ++ "'"),
                      mediaType := "application/xml", status := 400 },
        cache := cache, calls := [] }
  | some interval =>
      let looked := get_from_cache cache now symbol interval
      match looked.1 with
      | some hist =>
          { response := process_hist symbol interval maxRecords accept hist,
            cache := looked.2, calls := [] }
      | none =>
          let r1 := fetch_with_retries primaryDL 3 1
          match r1.result with
          | .ok hist =>
              { response := process_hist symbol interval maxRecords accept hist,
                cache := set_cache looked.2 now symbol interval hist,
                calls := List.replicate r1.attempts interval }
          | .error _ =>
              let r2 := fetch_with_retries fallbackDL 2 1
              let calls := List.replicate r1.attempts interval ++
                List.replicate r2.attempts "1d"
              match r2.result with
              | .ok hist =>
                  { response := process_hist symbol interval maxRecords accept hist,
                    cache := set_cache looked.2 now symbol interval hist,
                    calls := calls }
              | .error e =>
                  let msg := "No data returned for symbol '" ++ symbol ++
                    "' with interval '" ++ interval ++ "' or fallback: " ++ e
                  { response := { body := .xmlError msg,
                                  mediaType := "application/xml", status := 502 },
                    cache := looked.2, calls := calls }

/-- Capacity of `DOWNLOAD_SEMAPHORE = threading.Semaphore(3)`
(main.py line 18). -/
def DOWNLOAD_SEMAPHORE_CAPACITY : Nat := 3

/-- Phase of one request thread inside a retry sequence of
`fetch_with_retries`, as seen by the download semaphore. The `Nat` counts the
fetch attempts still available, the current one included. `idle` is outside
the `with DOWNLOAD_SEMAPHORE` block (including the backoff sleep), `acquired`
is inside the block just before `yf.download` is entered (main.py lines
102-104), `inCall` is inside the provider call itself, and `done` is after the
sequence returned or raised out. -/
inductive ThreadPhase where
  | idle : Nat → ThreadPhase
  | acquired : Nat → ThreadPhase
  | inCall : Nat → ThreadPhase
  | done : ThreadPhase
deriving DecidableEq

/-- Whether a thread currently holds a semaphore slot: exactly the phases
lexically inside the `with DOWNLOAD_SEMAPHORE` block. -/
def holdsSlot : ThreadPhase → Bool
  | .acquired _ => true
  | .inCall _ => true
  | .idle _ => false
  | .done => false

/-- Whether a thread currently has a `yf.download` call in flight. -/
def inDownload : ThreadPhase → Bool
  | .inCall _ => true
  | _ => false

/-- Global state of the interleaving model: the phase of every thread and the
number of semaphore slots currently held. -/
structure GateState where
  threads : List ThreadPhase
  held : Nat
deriving DecidableEq

/-- One interleaving step of the download gate, modelling main.py lines
100-113 of `fetch_with_retries`.
`acquire`: entering `with DOWNLOAD_SEMAPHORE` blocks until fewer than 3 slots
are held, then takes one.
`start`: the thread holding a slot enters `yf.download`.
`finish`: the provider call ends — by returning or by raising — and the `with`
block releases the slot on that exit unconditionally; the thread then either
retries after its backoff sleep (`idle k`) or leaves the sequence (`done`),
whether by returning the frame or by propagating the last exception. -/
inductive GateStep : GateState → GateState → Prop where
  | acquire (l r : List ThreadPhase) (k held : Nat)
      (hcap : held < DOWNLOAD_SEMAPHORE_CAPACITY) :
      GateStep { threads := l ++ ThreadPhase.idle (k + 1) :: r, held := held }
               { threads := l ++ ThreadPhase.acquired (k + 1) :: r, held := held + 1 }
  | start (l r : List ThreadPhase) (k held : Nat) :
      GateStep { threads := l ++ ThreadPhase.acquired (k + 1) :: r, held := held }
               { threads := l ++ ThreadPhase.inCall (k + 1) :: r, held := held }
  | finish (l r : List ThreadPhase) (k held : Nat) (next : ThreadPhase)
      (hnext : next = ThreadPhase.done ∨ next = ThreadPhase.idle k) :
      GateStep { threads := l ++ ThreadPhase.inCall (k + 1) :: r, held := held }
               { threads := l ++ next :: r, held := held - 1 }

/-- Initial state: one thread per pending retry sequence (e.g. `3` for a
primary sequence, `2` for a fallback sequence), no slot held. -/
def gateInit (retries : List Nat) : GateState :=
  { threads := retries.map ThreadPhase.idle, held := 0 }

/-- Gate invariant: the held-slot counter matches the number of threads inside
the `with` block, and never exceeds the semaphore capacity. -/
def GateInv (s : GateState) : Prop :=
  s.held = s.threads.countP holdsSlot ∧ s.held ≤ DOWNLOAD_SEMAPHORE_CAPACITY

/-- Whether an optional cell converts without raising: the column is missing
or its value is float-parseable. -/
def cellOk : Option Cell → Bool
  | none => true
  | some (.num _) => true
  | some (.nonnum _) => false

/-- The value `df_to_records` produces for a convertible optional cell:
`null` for a missing column, the number otherwise. -/
def rowVal : Option Cell → Option ℚ
  | some (.num q) => some q
  | _ => none

/-- A sample row used as concrete test data. -/
def rowW : Row := { date := "2024-01-02", openCell := some (.num 1), closeCell := some (.num 2) }

/-- A sample cache holding one entry fetched at time 0 for `("ACME", "1d")`. -/
def cacheW : CacheMap :=
  fun k => if k = ("ACME", "1d") then some { ts := 0, data := [rowW] } else none

/-- A retrying fetch only ever returns a non-empty series: the `return hist`
at main.py line 109 is guarded by `if not hist.empty`. -/
theorem fetchGo_ok_nonempty (oracle : Nat → DLResult) (backoff : ℚ) :
    ∀ (fuel attempt : Nat) (lastExc : Option String) (hist : Series),
      (fetchGo oracle backoff attempt fuel lastExc).result = .ok hist → hist ≠ [] := by
  intro fuel
  induction fuel with
  | zero => intro attempt lastExc hist h; simp [fetchGo] at h
  | succ n ih =>
    intro attempt lastExc hist h
    unfold fetchGo at h
    cases horacle : oracle attempt with
    | ok o =>
      cases o with
      | some s =>
        rw [horacle] at h
        by_cases hemp : s.isEmpty
        · simp [hemp] at h
          exact ih _ _ _ h
        · simp [hemp] at h
          cases h
          simpa using hemp
      | none =>
        rw [horacle] at h
        simp at h
        exact ih _ _ _ h
    | error e =>
      rw [horacle] at h
      simp at h
      exact ih _ _ _ h

/-- Specialization of `fetchGo_ok_nonempty` to `fetch_with_retries`. -/
theorem fetch_ok_nonempty (oracle : Nat → DLResult) (retries : Nat) (backoff : ℚ)
    (hist : Series) (h : (fetch_with_retries oracle retries backoff).result = .ok hist) :
    hist ≠ [] :=
  fetchGo_ok_nonempty oracle backoff retries 1 none hist h

/-- With at least one retry allowed, at least one download attempt is made. -/
theorem fetchGo_attempts_pos (oracle : Nat → DLResult) (backoff : ℚ)
    (fuel attempt : Nat) (lastExc : Option String) (h : 0 < fuel) :
    1 ≤ (fetchGo oracle backoff attempt fuel lastExc).attempts := by
  cases fuel with
  | zero => omega
  | succ n =>
    unfold fetchGo
    cases horacle : oracle attempt with
    | ok o =>
      cases o with
      | some s => by_cases hemp : s.isEmpty <;> simp [hemp]
      | none => simp
    | error e => simp

/-- Specialization of `fetchGo_attempts_pos` to `fetch_with_retries`. -/
theorem fetch_attempts_pos (oracle : Nat → DLResult) (retries : Nat) (backoff : ℚ)
    (h : 0 < retries) : 1 ≤ (fetch_with_retries oracle retries backoff).attempts :=
  fetchGo_attempts_pos oracle backoff retries 1 none h

/-- A cache lookup never touches entries under other keys. -/
theorem get_from_cache_other (cache : CacheMap) (now : Nat) (symbol interval : String)
    (k : String × String) (hk : k ≠ (strUpper symbol, interval)) :
    (get_from_cache cache now symbol interval).2 k = cache k := by
  unfold get_from_cache
  cases h : cache (strUpper symbol, interval) with
  | none => simp [h]
  | some entry =>
    by_cases hfresh : now - entry.ts < CACHE_TTL <;> simp [h, hfresh, hk]

/-- After a lookup, every key holds either its old entry or nothing (the
lookup can only evict, never insert). -/
theorem get_from_cache_sub (cache : CacheMap) (now : Nat) (symbol interval : String)
    (k : String × String) :
    (get_from_cache cache now symbol interval).2 k = cache k ∨
    (get_from_cache cache now symbol interval).2 k = none := by
  unfold get_from_cache
  cases h : cache (strUpper symbol, interval) with
  | none => simp [h]
  | some entry =>
    by_cases hfresh : now - entry.ts < CACHE_TTL
    · simp [h, hfresh]
    · simp [h, hfresh]
      by_cases hk : k = (strUpper symbol, interval) <;> simp [hk]

/-- Every response built by the post-fetch block is either a success (status
200) or a 500 XML error body (main.py lines 156-191). -/
theorem process_hist_cases (symbol interval : String) (maxRecords : Int)
    (accept : String) (hist : Series) :
    (process_hist symbol interval maxRecords accept hist).status = 200 ∨
    ∃ m, process_hist symbol interval maxRecords accept hist =
      { body := .xmlError m, mediaType := "application/xml", status := 500 } := by
  unfold process_hist
  by_cases hemp : hist.isEmpty
  · exact Or.inr ⟨"Empty data after fetch", by simp [hemp]⟩
  · simp only [hemp, if_false, Bool.false_eq_true]
    cases hrec : df_to_records (tail maxRecords hist) with
    | error e => exact Or.inr ⟨e, by simp⟩
    | ok records =>
      by_cases hjson : wantsJson accept <;> simp [hjson]

/-- On a row whose present values are all parseable, the normalizer yields
the record with `null` for each missing column. -/
theorem recordOfRow_ok (r : Row) (ho : cellOk r.openCell = true)
    (hc : cellOk r.closeCell = true) :
    recordOfRow r = .ok { date := r.date, open_ := rowVal r.openCell,
                          close := rowVal r.closeCell } := by
  obtain ⟨d, oc, cc⟩ := r
  rcases oc with _ | (q | s) <;> rcases cc with _ | (q2 | s2) <;>
    first
      | rfl
      | simp_all [cellOk]

/-- On a row with a non-parseable `Open` or `Close` value the per-row
conversion raises. -/
theorem recordOfRow_error (r : Row)
    (h : cellOk r.openCell = false ∨ cellOk r.closeCell = false) :
    ∃ e, recordOfRow r = .error e := by
  obtain ⟨d, oc, cc⟩ := r
  rcases oc with _ | (q | s) <;> rcases cc with _ | (q2 | s2) <;>
    first
      | exact ⟨_, rfl⟩
      | simp_all [cellOk]

/-- Unfolding step of `df_to_records` when the first row raises. -/
theorem df_to_records_cons_err (r : Row) (rs : List Row) (e : String)
    (h : recordOfRow r = .error e) : df_to_records (r :: rs) = .error e := by
  simp only [df_to_records, h]
  rfl

/-- Unfolding step of `df_to_records` when the first row converts. -/
theorem df_to_records_cons_ok (r : Row) (rs : List Row) (v : StockRecord)
    (h : recordOfRow r = .ok v) :
    df_to_records (r :: rs) = (df_to_records rs).map (v :: ·) := by
  simp only [df_to_records, h]
  cases hrs : df_to_records rs <;> rfl

/-- Every response of the handler is either a success (status 200) or carries
a one-field XML error body: all three error paths of `stock_info` build
`<error><message>` with `media_type="application/xml"`. -/
theorem stock_info_error_shape (primaryDL fallbackDL : Nat → DLResult) (cache : CacheMap)
    (now : Nat) (symbol interval0 : String) (maxRecords : Int) (accept : String) :
    (stock_info primaryDL fallbackDL cache now symbol interval0 maxRecords accept).response.status = 200 ∨
    ∃ m,
      (stock_info primaryDL fallbackDL cache now symbol interval0 maxRecords accept).response.body = .xmlError m ∧
      (stock_info primaryDL fallbackDL cache now symbol interval0 maxRecords accept).response.mediaType = "application/xml" := by
  simp only [stock_info]
  cases hres : resolveInterval (strLower interval0) with
  | none => exact Or.inr ⟨_, rfl, rfl⟩
  | some interval =>
    dsimp only
    cases hcached : (get_from_cache cache now symbol interval).1 with
    | some hist =>
      dsimp only
      rcases process_hist_cases symbol interval maxRecords accept hist with h | ⟨m, hm⟩
      · exact Or.inl h
      · exact Or.inr ⟨m, by rw [hm], by rw [hm]⟩
    | none =>
      dsimp only
      cases hr1 : (fetch_with_retries primaryDL 3 1).result with
      | ok hist =>
        dsimp only
        rcases process_hist_cases symbol interval maxRecords accept hist with h | ⟨m, hm⟩
        · exact Or.inl h
        · exact Or.inr ⟨m, by rw [hm], by rw [hm]⟩
      | error e1 =>
        dsimp only
        cases hr2 : (fetch_with_retries fallbackDL 2 1).result with
        | ok hist =>
          dsimp only
          rcases process_hist_cases symbol interval maxRecords accept hist with h | ⟨m, hm⟩
          · exact Or.inl h
          · exact Or.inr ⟨m, by rw [hm], by rw [hm]⟩
        | error e2 => exact Or.inr ⟨_, rfl, rfl⟩

/-- A thread is inside the provider call only if it is inside the `with`
block, so the download count is bounded by the slot-holder count. -/
theorem countP_inDownload_le_holdsSlot (l : List ThreadPhase) :
    l.countP inDownload ≤ l.countP holdsSlot := by
  induction l with
  | nil => simp
  | cons a t ih =>
    simp only [List.countP_cons]
    have h : (if inDownload a = true then 1 else 0) ≤
        (if holdsSlot a = true then 1 else 0) := by
      cases a <;> simp [inDownload, holdsSlot]
    omega

/-- The gate invariant holds initially: no slot held, no thread in the
`with` block. -/
theorem gateInv_init (retries : List Nat) : GateInv (gateInit retries) := by
  constructor
  · show (0 : Nat) = _
    induction retries with
    | nil => rfl
    | cons a t ih =>
      simpa [gateInit, List.countP_cons, holdsSlot] using ih
  · show (0 : Nat) ≤ _
    exact Nat.zero_le _

/-- Every gate step preserves the invariant: `acquire` is guarded by the
capacity, and `finish` decrements the counter on both the return and the
raise exits of the provider call. -/
theorem gateInv_step {s t : GateState} (hs : GateInv s) (hst : GateStep s t) :
    GateInv t := by
  obtain ⟨hcount, hcap⟩ := hs
  cases hst with
  | acquire l r k held hlt =>
    dsimp only at hcount hcap hlt ⊢
    unfold GateInv
    dsimp only
    simp [List.countP_append, List.countP_cons, holdsSlot] at hcount ⊢
    omega
  | start l r k held =>
    dsimp only at hcount hcap ⊢
    unfold GateInv
    dsimp only
    simp [List.countP_append, List.countP_cons, holdsSlot] at hcount ⊢
    omega
  | finish l r k held next hnext =>
    dsimp only at hcount hcap ⊢
    unfold GateInv
    dsimp only
    rcases hnext with rfl | rfl <;>
      simp [List.countP_append, List.countP_cons, holdsSlot] at hcount ⊢ <;>
      omega

/-- The gate invariant holds in every reachable state. -/
theorem gateInv_reachable {s t : GateState} (h : Relation.ReflTransGen GateStep s t)
    (hs : GateInv s) : GateInv t := by
  induction h with
  | refl => exact hs
  | tail hab hbc ih => exact gateInv_step ih hbc

/-- C1: evaluation of the retrying fetch at a provider that raises on every
attempt. The loop body of `fetch_with_retries` executes `time.sleep` after
every failed attempt, including the final one (main.py line 115 runs
unconditionally before the loop ends and line 117 re-raises): a 3-attempt
sequence sleeps 3 times (1, 2, 4 time-units) before raising, and a 2-attempt
sequence sleeps twice (1, 2), against the claimed at-most-2 and at-most-1
sleeps with no sleep after the final failed attempt. Each wait is indeed
double the previous one. -/
theorem C1_backoff_sleeps :
    (fetch_with_retries (fun _ => .error "network down") 3 1).sleeps = [1, 2, 4] ∧
    (fetch_with_retries (fun _ => .error "network down") 3 1).result =
      .error "network down" ∧
    (fetch_with_retries (fun _ => .error "network down") 2 1).sleeps = [1, 2] := by
  refine ⟨?_, by decide, ?_⟩ <;> norm_num [fetch_with_retries, fetchGo]

/-- C2 counterexample: with requested interval exactly `"1d"` and a provider
that fails every attempt, the handler still runs the 2-attempt fallback
sequence after the 3-attempt primary sequence — five download calls in all,
not three — so exhaustion of the primary sequence is not terminal for `1d`. -/
theorem C2_counterexample :
    (stock_info (fun _ => .error "down") (fun _ => .error "down") (fun _ => none) 0
        "ACME" "1d" 180 "").calls = ["1d", "1d", "1d", "1d", "1d"] ∧
    (stock_info (fun _ => .error "down") (fun _ => .error "down") (fun _ => none) 0
        "ACME" "1d" 180 "").response.status = 502 :=
  ⟨by decide, by decide⟩

/-- C2 amended: whenever the primary retry sequence exhausts on a cache miss,
the handler always performs the 2-attempt `"1d"` fallback sequence — with at
least one download call — regardless of whether the requested interval is
already `"1d"`; there is no interval check guarding the fallback
(main.py lines 144-147). -/
theorem C2_fallback_always_runs (primaryDL fallbackDL : Nat → DLResult) (cache : CacheMap)
    (now : Nat) (symbol interval0 : String) (maxRecords : Int) (accept : String)
    (interval e1 : String)
    (hres : resolveInterval (strLower interval0) = some interval)
    (hmiss : (get_from_cache cache now symbol interval).1 = none)
    (hfail : (fetch_with_retries primaryDL 3 1).result = .error e1) :
    (stock_info primaryDL fallbackDL cache now symbol interval0 maxRecords accept).calls =
      List.replicate (fetch_with_retries primaryDL 3 1).attempts interval ++
        List.replicate (fetch_with_retries fallbackDL 2 1).attempts "1d" ∧
    1 ≤ (fetch_with_retries fallbackDL 2 1).attempts := by
  refine ⟨?_, fetch_attempts_pos fallbackDL 2 1 (by omega)⟩
  simp only [stock_info, hres]
  rw [hmiss]
  dsimp only
  rw [hfail]
  dsimp only
  cases hr2 : (fetch_with_retries fallbackDL 2 1).result <;> rfl

/-- C2 witness: the amended statement applied at interval `"1d"`, an empty
cache, and an always-failing provider. -/
theorem C2_fallback_always_runs_witness :
    resolveInterval (strLower "1d") = some "1d" ∧
    (get_from_cache (fun _ => none) 0 "ACME" "1d").1 = none ∧
    (fetch_with_retries (fun _ => .error "down") 3 1).result = .error "down" ∧
    (stock_info (fun _ => .error "down") (fun _ => .error "down") (fun _ => none) 0
        "ACME" "1d" 180 "").calls =
      List.replicate (fetch_with_retries (fun _ => .error "down") 3 1).attempts "1d" ++
        List.replicate (fetch_with_retries (fun _ => .error "down") 2 1).attempts "1d" :=
  ⟨by decide, by decide, by decide,
   (C2_fallback_always_runs (fun _ => .error "down") (fun _ => .error "down") (fun _ => none) 0
     "ACME" "1d" 180 "" "1d" "down" (by decide) (by decide) (by decide)).1⟩

/-- C3 counterexample: an invalid-interval request whose Accept header asks
for `application/json` still receives an XML error body with media type
`application/xml` (main.py lines 132-134 ignore the Accept header), refuting
the claim that error bodies follow content negotiation. -/
theorem C3_counterexample :
    (stock_info (fun _ => .error "down") (fun _ => .error "down") (fun _ => none) 0
        "ACME" "7d" 180 "application/json").response =
      { body := .xmlError "Unsupported interval '7d'", mediaType := "application/xml",
        status := 400 } := by decide

/-- C3 amended: every failing request — invalid interval, fetch exhaustion,
or post-fetch processing failure — renders a one-field XML `<error><message>`
body with media type `application/xml`, regardless of the Accept header;
content negotiation applies only to success responses. -/
theorem C3_errors_always_xml (primaryDL fallbackDL : Nat → DLResult) (cache : CacheMap)
    (now : Nat) (symbol interval0 : String) (maxRecords : Int) (accept : String)
    (h : (stock_info primaryDL fallbackDL cache now symbol interval0 maxRecords accept).response.status ≠ 200) :
    ∃ m,
      (stock_info primaryDL fallbackDL cache now symbol interval0 maxRecords accept).response.body = .xmlError m ∧
      (stock_info primaryDL fallbackDL cache now symbol interval0 maxRecords accept).response.mediaType = "application/xml" := by
  rcases stock_info_error_shape primaryDL fallbackDL cache now symbol interval0 maxRecords accept with h200 | hx
  · exact absurd h200 h
  · exact hx

/-- C3 witness: the amended statement applied to a 502 fetch-exhaustion
response requested with `Accept: application/json`. -/
theorem C3_errors_always_xml_witness :
    (stock_info (fun _ => .error "down") (fun _ => .error "down") (fun _ => none) 0
        "ACME" "1m" 180 "application/json").response.status ≠ 200 ∧
    ∃ m,
      (stock_info (fun _ => .error "down") (fun _ => .error "down") (fun _ => none) 0
          "ACME" "1m" 180 "application/json").response.body = .xmlError m ∧
      (stock_info (fun _ => .error "down") (fun _ => .error "down") (fun _ => none) 0
          "ACME" "1m" 180 "application/json").response.mediaType = "application/xml" :=
  ⟨by decide,
   C3_errors_always_xml (fun _ => .error "down") (fun _ => .error "down") (fun _ => none) 0
     "ACME" "1m" 180 "application/json" (by decide)⟩

/-- C4 counterexample: a row whose `Open` value is the non-numeric string
`"abc"` makes `df_to_records` raise (`float("abc")` at main.py line 59 is not
guarded), instead of yielding `null` as claimed. -/
theorem C4_counterexample :
    df_to_records [Row.mk "2024-01-02" (some (.nonnum "abc")) (some (.num 1))] =
      .error "could not convert string to float: 'abc'" := by decide

/-- C4 amended: the record normalizer never raises on missing fields — a
missing `Open` or `Close` column yields `null` for that field while the rest
of the record is produced — but a non-numeric (unparseable) value in `Open`
or `Close` makes it raise (the error propagates to the handler's catch-all)
rather than yielding `null`. -/
theorem C4_normalizer (hist : List Row) :
    ((∀ r ∈ hist, cellOk r.openCell = true ∧ cellOk r.closeCell = true) →
      df_to_records hist = .ok (hist.map fun r =>
        { date := r.date, open_ := rowVal r.openCell, close := rowVal r.closeCell })) ∧
    ((∃ r ∈ hist, cellOk r.openCell = false ∨ cellOk r.closeCell = false) →
      ∃ e, df_to_records hist = .error e) := by
  constructor
  · intro hall
    induction hist with
    | nil => rfl
    | cons r rs ih =>
      have hr := hall r (by simp)
      have hrest := ih fun x hx => hall x (by simp [hx])
      rw [df_to_records_cons_ok r rs _ (recordOfRow_ok r hr.1 hr.2), hrest]
      rfl
  · intro hbad
    induction hist with
    | nil => simp at hbad
    | cons r rs ih =>
      by_cases hrbad : cellOk r.openCell = false ∨ cellOk r.closeCell = false
      · obtain ⟨e, he⟩ := recordOfRow_error r hrbad
        exact ⟨e, df_to_records_cons_err r rs e he⟩
      · push_neg at hrbad
        have ho : cellOk r.openCell = true := Bool.ne_false_iff.mp hrbad.1
        have hc : cellOk r.closeCell = true := Bool.ne_false_iff.mp hrbad.2
        have hrest : ∃ x ∈ rs, cellOk x.openCell = false ∨ cellOk x.closeCell = false := by
          rcases hbad with ⟨x, hx, hxbad⟩
          rcases List.mem_cons.1 hx with rfl | hx'
          · rcases hxbad with h | h
            · rw [ho] at h; cases h
            · rw [hc] at h; cases h
          · exact ⟨x, hx', hxbad⟩
        obtain ⟨e, he⟩ := ih hrest
        refine ⟨e, ?_⟩
        rw [df_to_records_cons_ok r rs _ (recordOfRow_ok r ho hc), he]
        rfl

/-- C4 witness: a row with a valid `Open` and a missing `Close` normalizes to
`{open: 1, close: null}` without raising. -/
theorem C4_normalizer_witness :
    (∀ r ∈ [Row.mk "2024-01-02" (some (.num 1)) none],
      cellOk r.openCell = true ∧ cellOk r.closeCell = true) ∧
    df_to_records [Row.mk "2024-01-02" (some (.num 1)) none] =
      .ok [{ date := "2024-01-02", open_ := some 1, close := none }] :=
  ⟨by decide, (C4_normalizer [Row.mk "2024-01-02" (some (.num 1)) none]).1 (by decide)⟩

/-- C5: when the primary sequence exhausts and the `"1d"` fallback succeeds,
the fetched series is cached under the originally requested
`(symbol, interval)` key — `set_cache(symbol, interval, hist)` at main.py
line 153 uses the requested interval — and no other key (in particular not
`(symbol, "1d")` when the requested interval differs) is written. -/
theorem C5_fallback_cached_under_original_key (primaryDL fallbackDL : Nat → DLResult)
    (cache : CacheMap) (now : Nat) (symbol interval0 : String) (maxRecords : Int)
    (accept : String) (interval e1 : String) (hist : Series)
    (hres : resolveInterval (strLower interval0) = some interval)
    (hmiss : (get_from_cache cache now symbol interval).1 = none)
    (hfail : (fetch_with_retries primaryDL 3 1).result = .error e1)
    (hfok : (fetch_with_retries fallbackDL 2 1).result = .ok hist) :
    (stock_info primaryDL fallbackDL cache now symbol interval0 maxRecords accept).cache
      (strUpper symbol, interval) = some { ts := now, data := hist } ∧
    ∀ k, k ≠ (strUpper symbol, interval) →
      (stock_info primaryDL fallbackDL cache now symbol interval0 maxRecords accept).cache k =
        cache k := by
  have hout :
      (stock_info primaryDL fallbackDL cache now symbol interval0 maxRecords accept).cache =
        set_cache (get_from_cache cache now symbol interval).2 now symbol interval hist := by
    simp only [stock_info, hres]
    rw [hmiss]
    dsimp only
    rw [hfail]
    dsimp only
    rw [hfok]
  rw [hout]
  constructor
  · simp [set_cache]
  · intro k hk
    simp only [set_cache, if_neg hk]
    exact get_from_cache_other cache now symbol interval k hk

/-- C5 witness: with requested interval `"5d"`, an always-failing primary
fetch and a fallback returning one row, the row is cached under
`("ACME", "5d")`. -/
theorem C5_fallback_cached_witness :
    resolveInterval (strLower "5d") = some "5d" ∧
    (get_from_cache (fun _ => none) 7 "acme" "5d").1 = none ∧
    (fetch_with_retries (fun _ => .error "down") 3 1).result = .error "down" ∧
    (fetch_with_retries (fun _ => .ok (some [rowW])) 2 1).result = .ok [rowW] ∧
    (stock_info (fun _ => .error "down") (fun _ => .ok (some [rowW])) (fun _ => none) 7
        "acme" "5d" 180 "").cache (strUpper "acme", "5d") = some { ts := 7, data := [rowW] } :=
  ⟨by decide, by decide, by decide, by decide,
   (C5_fallback_cached_under_original_key (fun _ => .error "down") (fun _ => .ok (some [rowW]))
     (fun _ => none) 7 "acme" "5d" 180 "" "5d" "down" [rowW]
     (by decide) (by decide) (by decide) (by decide)).1⟩

/-- C6: a cache lookup returns the stored series exactly when the entry's age
is strictly less than `CACHE_TTL` = 90 time-units; an entry aged 90 or more
is never returned and is deleted from the cache as a side effect of that very
lookup, leaving all other keys untouched; a lookup of an absent key returns
nothing and changes nothing. -/
theorem C6_cache_get_ttl (cache : CacheMap) (now : Nat) (symbol interval : String) :
    (∀ e, cache (strUpper symbol, interval) = some e → now - e.ts < CACHE_TTL →
      (get_from_cache cache now symbol interval).1 = some e.data ∧
      (get_from_cache cache now symbol interval).2 = cache) ∧
    (∀ e, cache (strUpper symbol, interval) = some e → CACHE_TTL ≤ now - e.ts →
      (get_from_cache cache now symbol interval).1 = none ∧
      (get_from_cache cache now symbol interval).2 (strUpper symbol, interval) = none ∧
      ∀ k, k ≠ (strUpper symbol, interval) →
        (get_from_cache cache now symbol interval).2 k = cache k) ∧
    (cache (strUpper symbol, interval) = none →
      (get_from_cache cache now symbol interval).1 = none ∧
      (get_from_cache cache now symbol interval).2 = cache) := by
  refine ⟨?_, ?_, ?_⟩
  · intro e he hfresh
    simp [get_from_cache, he, hfresh]
  · intro e he hstale
    have hnot : ¬(now - e.ts < CACHE_TTL) := by omega
    refine ⟨by simp [get_from_cache, he, hnot], by simp [get_from_cache, he, hnot], ?_⟩
    intro k hk
    simp [get_from_cache, he, hnot, hk]
  · intro h
    simp [get_from_cache, h]

/-- C6 witness: the entry fetched at time 0 is returned at time 10 (age 10)
and is purged by a lookup at time 100 (age 100). -/
theorem C6_cache_get_ttl_witness :
    (cacheW (strUpper "ACME", "1d") = some { ts := 0, data := [rowW] } ∧
      (10 : Nat) - (0 : Nat) < CACHE_TTL ∧
      (get_from_cache cacheW 10 "ACME" "1d").1 = some [rowW]) ∧
    (cacheW (strUpper "ACME", "1d") = some { ts := 0, data := [rowW] } ∧
      CACHE_TTL ≤ (100 : Nat) - (0 : Nat) ∧
      (get_from_cache cacheW 100 "ACME" "1d").1 = none ∧
      (get_from_cache cacheW 100 "ACME" "1d").2 (strUpper "ACME", "1d") = none) :=
  ⟨⟨by decide, by decide,
    ((C6_cache_get_ttl cacheW 10 "ACME" "1d").1 { ts := 0, data := [rowW] }
      (by decide) (by decide)).1⟩,
   ⟨by decide, by decide,
    ((C6_cache_get_ttl cacheW 100 "ACME" "1d").2.1 { ts := 0, data := [rowW] }
      (by decide) (by decide)).1,
    ((C6_cache_get_ttl cacheW 100 "ACME" "1d").2.1 { ts := 0, data := [rowW] }
      (by decide) (by decide)).2.1⟩⟩

/-- C7: when the lower-cased interval is neither a member of
`VALID_INTERVALS` nor an alias, the handler short-circuits with a 400 XML
error body whose message is exactly `Unsupported interval '<value>'`, makes
no download call, and leaves the cache untouched. -/
theorem C7_invalid_interval (primaryDL fallbackDL : Nat → DLResult) (cache : CacheMap)
    (now : Nat) (symbol interval0 : String) (maxRecords : Int) (accept : String)
    (h : resolveInterval (strLower interval0) = none) :
    (stock_info primaryDL fallbackDL cache now symbol interval0 maxRecords accept).response =
      { body := .xmlError ("Unsupported interval '" ++ strLower interval0 ++ "'"),
        mediaType := "application/xml", status := 400 } ∧
    (stock_info primaryDL fallbackDL cache now symbol interval0 maxRecords accept).calls = [] ∧
    (stock_info primaryDL fallbackDL cache now symbol interval0 maxRecords accept).cache = cache := by
  refine ⟨?_, ?_, ?_⟩ <;> simp [stock_info, h]

/-- C7 witness: the unsupported interval `"7d"` of the spec's example. -/
theorem C7_invalid_interval_witness :
    resolveInterval (strLower "7d") = none ∧
    (stock_info (fun _ => .error "x") (fun _ => .error "x") (fun _ => none) 0
        "ACME" "7d" 180 "").response =
      { body := .xmlError ("Unsupported interval '" ++ strLower "7d" ++ "'"),
        mediaType := "application/xml", status := 400 } :=
  ⟨by decide,
   (C7_invalid_interval (fun _ => .error "x") (fun _ => .error "x") (fun _ => none) 0
      "ACME" "7d" 180 "" (by decide)).1⟩

/-- C8: with `0 < max_records < len(series)`, the kept slice
`tail max_records` is exactly the last `max_records` rows of the raw series —
a suffix, in original order — the handler normalizes precisely that slice
(status 200, history = its normalization, latest close from it), and the
signature default of `max_records` is 180. -/
theorem C8_truncation (symbol interval : String) (maxRecords : Int) (accept : String)
    (hist : Series) (records : List StockRecord)
    (hpos : 0 < maxRecords) (hlen : maxRecords.toNat < hist.length)
    (hrec : df_to_records (tail maxRecords hist) = .ok records) :
    (tail maxRecords hist).length = maxRecords.toNat ∧
    tail maxRecords hist = hist.drop (hist.length - maxRecords.toNat) ∧
    List.IsSuffix (tail maxRecords hist) hist ∧
    (process_hist symbol interval maxRecords accept hist).status = 200 ∧
    bodyPayload (process_hist symbol interval maxRecords accept hist).body =
      some (Payload.mk (strUpper symbol) (lastClose (tail maxRecords hist))
        "YahooFinance (yfinance)" interval records.length records) ∧
    DEFAULT_MAX_RECORDS = 180 := by
  have htail : tail maxRecords hist = hist.drop (hist.length - maxRecords.toNat) := by
    unfold tail
    rw [if_pos (le_of_lt hpos)]
  have hemp : hist.isEmpty = false := by
    cases hist with
    | nil => simp at hlen
    | cons a t => rfl
  have hproc :
      process_hist symbol interval maxRecords accept hist =
        (if wantsJson accept then
          HttpResponse.mk
            (Body.jsonStock (Payload.mk (strUpper symbol) (lastClose (tail maxRecords hist))
              "YahooFinance (yfinance)" interval records.length records))
            "application/json" 200
        else
          HttpResponse.mk
            (Body.xmlStock (Payload.mk (strUpper symbol) (lastClose (tail maxRecords hist))
              "YahooFinance (yfinance)" interval records.length records))
            "application/xml" 200) := by
    simp only [process_hist, hemp, Bool.false_eq_true, if_false]
    rw [hrec]
  refine ⟨?_, htail, ?_, ?_, ?_, rfl⟩
  · rw [htail, List.length_drop]
    omega
  · rw [htail]
    exact List.drop_suffix _ _
  · rw [hproc]
    by_cases hj : wantsJson accept <;> simp [hj]
  · rw [hproc]
    by_cases hj : wantsJson accept <;> simp [hj, bodyPayload]

/-- C8 witness: `max_records = 3` on a 10-row series keeps exactly the last 3
rows and returns their normalization with status 200. -/
theorem C8_truncation_witness :
    (0 : Int) < 3 ∧
    (3 : Int).toNat < (List.replicate 10 rowW).length ∧
    df_to_records (tail 3 (List.replicate 10 rowW)) =
      .ok (List.replicate 3 (StockRecord.mk "2024-01-02" (some 1) (some 2))) ∧
    (process_hist "acme" "1d" 3 "" (List.replicate 10 rowW)).status = 200 ∧
    bodyPayload (process_hist "acme" "1d" 3 "" (List.replicate 10 rowW)).body =
      some (Payload.mk (strUpper "acme") (lastClose (tail 3 (List.replicate 10 rowW)))
        "YahooFinance (yfinance)" "1d"
        (List.replicate 3 (StockRecord.mk "2024-01-02" (some 1) (some 2))).length
        (List.replicate 3 (StockRecord.mk "2024-01-02" (some 1) (some 2)))) :=
  ⟨by decide, by decide, by decide,
   (C8_truncation "acme" "1d" 3 "" (List.replicate 10 rowW)
     (List.replicate 3 (StockRecord.mk "2024-01-02" (some 1) (some 2)))
     (by decide) (by decide) (by decide)).2.2.2.1,
   (C8_truncation "acme" "1d" 3 "" (List.replicate 10 rowW)
     (List.replicate 3 (StockRecord.mk "2024-01-02" (some 1) (some 2)))
     (by decide) (by decide) (by decide)).2.2.2.2.1⟩

/-- C9: in every state reachable by interleaving any number of retry
sequences (each of any length), the number of threads with a provider call in
flight never exceeds the semaphore capacity 3; every in-flight call belongs
to a thread inside the `with DOWNLOAD_SEMAPHORE` block, and the held-slot
count matches the number of such threads — the slot being released on every
exit of the call, raising included (`GateStep.finish`). -/
theorem C9_semaphore_bound (retries : List Nat) (s : GateState)
    (h : Relation.ReflTransGen GateStep (gateInit retries) s) :
    s.threads.countP inDownload ≤ DOWNLOAD_SEMAPHORE_CAPACITY ∧
    s.threads.countP inDownload ≤ s.threads.countP holdsSlot ∧
    s.threads.countP holdsSlot = s.held ∧
    DOWNLOAD_SEMAPHORE_CAPACITY = 3 := by
  obtain ⟨hcount, hcap⟩ := gateInv_reachable h (gateInv_init retries)
  refine ⟨?_, countP_inDownload_le_holdsSlot _, hcount.symm, rfl⟩
  calc s.threads.countP inDownload ≤ s.threads.countP holdsSlot :=
        countP_inDownload_le_holdsSlot _
    _ = s.held := hcount.symm
    _ ≤ DOWNLOAD_SEMAPHORE_CAPACITY := hcap

/-- C9 witness: the bound applied to the initial state of one 3-attempt
primary sequence and one 2-attempt fallback sequence. -/
theorem C9_semaphore_bound_witness :
    Relation.ReflTransGen GateStep (gateInit [3, 2]) (gateInit [3, 2]) ∧
    (gateInit [3, 2]).threads.countP inDownload ≤ DOWNLOAD_SEMAPHORE_CAPACITY ∧
    (gateInit [3, 2]).threads.countP inDownload ≤
      (gateInit [3, 2]).threads.countP holdsSlot ∧
    (gateInit [3, 2]).threads.countP holdsSlot = (gateInit [3, 2]).held ∧
    DOWNLOAD_SEMAPHORE_CAPACITY = 3 :=
  ⟨Relation.ReflTransGen.refl,
   C9_semaphore_bound [3, 2] (gateInit [3, 2]) Relation.ReflTransGen.refl⟩

/-- C10 counterexample: when a stale entry exists under the requested key and
both fetch sequences fail, the request returns 502 but the cache is not left
unchanged for that key — the stale entry was evicted by the initial lookup —
refuting the letter of the claim. -/
theorem C10_counterexample :
    cacheW ("ACME", "1d") = some { ts := 0, data := [rowW] } ∧
    (stock_info (fun _ => .error "down") (fun _ => .error "down") cacheW 100
        "ACME" "1d" 180 "").response.status = 502 ∧
    (stock_info (fun _ => .error "down") (fun _ => .error "down") cacheW 100
        "ACME" "1d" 180 "").cache ("ACME", "1d") = none :=
  ⟨by decide, by decide, by decide⟩

/-- C10 amended: every series a request stores in the cache is non-empty —
the cache is written only with the return value of a successful retrying
fetch, which is never empty — so non-emptiness of all cached series is
preserved by every request; and when both the primary and the fallback
sequences fail, the request returns a 502 error and writes nothing: every key
keeps its old entry or holds none (the only possible change being the lazy
eviction of an already-stale entry by the initial lookup). -/
theorem C10_cache_nonempty_invariant (primaryDL fallbackDL : Nat → DLResult)
    (cache : CacheMap) (now : Nat) (symbol interval0 : String) (maxRecords : Int)
    (accept : String) :
    ((∀ k e, cache k = some e → e.data ≠ []) →
      ∀ k e,
        (stock_info primaryDL fallbackDL cache now symbol interval0 maxRecords accept).cache k =
          some e → e.data ≠ []) ∧
    (∀ interval e1 e2, resolveInterval (strLower interval0) = some interval →
      (get_from_cache cache now symbol interval).1 = none →
      (fetch_with_retries primaryDL 3 1).result = .error e1 →
      (fetch_with_retries fallbackDL 2 1).result = .error e2 →
      (stock_info primaryDL fallbackDL cache now symbol interval0 maxRecords accept).response.status = 502 ∧
      ∀ k,
        (stock_info primaryDL fallbackDL cache now symbol interval0 maxRecords accept).cache k =
          cache k ∨
        (stock_info primaryDL fallbackDL cache now symbol interval0 maxRecords accept).cache k =
          none) := by
  constructor
  · intro hinv k e
    simp only [stock_info]
    cases hres : resolveInterval (strLower interval0) with
    | none => exact hinv k e
    | some interval =>
      dsimp only
      cases hcached : (get_from_cache cache now symbol interval).1 with
      | some hist =>
        dsimp only
        intro hk
        rcases get_from_cache_sub cache now symbol interval k with hs | hs
        · rw [hs] at hk
          exact hinv k e hk
        · rw [hs] at hk
          cases hk
      | none =>
        dsimp only
        cases hr1 : (fetch_with_retries primaryDL 3 1).result with
        | ok hist =>
          dsimp only
          intro hk
          by_cases hkk : k = (strUpper symbol, interval)
          · rw [hkk] at hk
            unfold set_cache at hk
            rw [if_pos rfl] at hk
            injection hk with hk
            rw [← hk]
            exact fetch_ok_nonempty primaryDL 3 1 hist hr1
          · simp only [set_cache, if_neg hkk] at hk
            rcases get_from_cache_sub cache now symbol interval k with hs | hs
            · rw [hs] at hk
              exact hinv k e hk
            · rw [hs] at hk
              cases hk
        | error e1 =>
          dsimp only
          cases hr2 : (fetch_with_retries fallbackDL 2 1).result with
          | ok hist =>
            dsimp only
            intro hk
            by_cases hkk : k = (strUpper symbol, interval)
            · rw [hkk] at hk
              unfold set_cache at hk
              rw [if_pos rfl] at hk
              injection hk with hk
              rw [← hk]
              exact fetch_ok_nonempty fallbackDL 2 1 hist hr2
            · simp only [set_cache, if_neg hkk] at hk
              rcases get_from_cache_sub cache now symbol interval k with hs | hs
              · rw [hs] at hk
                exact hinv k e hk
              · rw [hs] at hk
                cases hk
          | error e2 =>
            dsimp only
            intro hk
            rcases get_from_cache_sub cache now symbol interval k with hs | hs
            · rw [hs] at hk
              exact hinv k e hk
            · rw [hs] at hk
              cases hk
  · intro interval e1 e2 hres hmiss h1 h2
    have hred :
        stock_info primaryDL fallbackDL cache now symbol interval0 maxRecords accept =
          StockOutcome.mk
            (HttpResponse.mk
              (Body.xmlError ("No data returned for symbol '" ++ symbol ++ "' with interval '" ++ interval ++ "' or fallback: " ++ e2))
              "application/xml" 502)
            (get_from_cache cache now symbol interval).2
            (List.replicate (fetch_with_retries primaryDL 3 1).attempts interval ++ List.replicate (fetch_with_retries fallbackDL 2 1).attempts "1d") := by
      simp only [stock_info, hres]
      rw [hmiss]
      dsimp only
      rw [h1]
      dsimp only
      rw [h2]
    rw [hred]
    exact ⟨rfl, fun k => get_from_cache_sub cache now symbol interval k⟩

/-- C10 witness: the invariant applied to an empty cache and a provider
returning one row on the first attempt. -/
theorem C10_cache_nonempty_invariant_witness :
    (∀ k e, (fun _ => none : CacheMap) k = some e → e.data ≠ []) ∧
    (∀ k e,
      (stock_info (fun _ => .ok (some [rowW])) (fun _ => .error "x") (fun _ => none) 0
          "ACME" "1d" 180 "").cache k = some e → e.data ≠ []) :=
  ⟨fun _ _ h => Option.noConfusion h,
   (C10_cache_nonempty_invariant (fun _ => .ok (some [rowW])) (fun _ => .error "x")
       (fun _ => none) 0 "ACME" "1d" 180 "").1
     (fun _ _ h => Option.noConfusion h)⟩
